import Mathlib

/-!
Verification development for the neveroff resilient gateway client
(src/main.py, src/state_store.py, src/keep_alive.py).

The Python source is shallowly embedded: each modelled function mirrors the
control flow of the corresponding source function, with mutable globals
turned into explicit state records, wall-clock times as rationals, and the
runtime environment (random jitter, socket send success, the stop event)
passed as explicit parameters.  Fallible code paths (an uncaught Python
exception) are modelled with Option.
-/

namespace Neveroff

/-- JSON-like values, as far as the state store needs them.  Timestamps and
sequence numbers are both carried by the num constructor (rationals cover
the ints and floats the program stores). -/
inductive JVal where
  | null : JVal
  | bool : Bool → JVal
  | num : ℚ → JVal
  | str : String → JVal
  deriving Repr, DecidableEq

/-- A Python dict with string keys, as stored by StateStore.  Modelled as an
association list; dictInsert keeps at most one entry per key, so ordering is
the only difference from a Python dict and it is unobservable through
dictGet. -/
abbrev Dict := List (String × JVal)

/-- dict lookup: d.get(key) semantics over the association list. -/
def dictGet (m : Dict) (k : String) : Option JVal :=
  match m with
  | [] => none
  | (k2, v) :: rest => if k2 = k then some v else dictGet rest k

/-- dict single-key assignment d[k] = v: the new binding wins, any previous
binding for the key is dropped. -/
def dictInsert (m : Dict) (k : String) (v : JVal) : Dict :=
  (k, v) :: m.filter fun p => !(p.1 == k)

/-- dict.update(d): fold the partial mapping into the dict, later keys of d
winning, exactly as Python dict.update does for lookup purposes. -/
def dictUpdate (m : Dict) (d : Dict) : Dict :=
  d.foldl (fun acc p => dictInsert acc p.1 p.2) m

/-- The mutable session globals of src/main.py: session_id (Optional[str]),
sequence (Optional[int]) and last_ack_timestamp (Optional[float]). -/
structure SessionState where
  session_id : Option String
  sequence : Option Int
  last_ack_timestamp : Option ℚ
  deriving Repr, DecidableEq

/-- The d payload of a dispatch frame, as far as handle_dispatch inspects
it: a JSON object whose session_id key may be absent. -/
structure ReadyPayload where
  session_id : Option String
  deriving Repr, DecidableEq

/-- An inbound dispatch (op 0) frame after json.loads, restricted to the
keys handle_dispatch reads.  s = none models an absent or null s field
(the source guard treats both alike); t = none models an absent, null or
non-string t (none of which equals the string READY); d = none models an
absent or null d payload (both give Python d = None). -/
structure DispatchFrame where
  s : Option Int
  t : Option String
  d : Option ReadyPayload
  deriving Repr, DecidableEq

/-- src/main.py handle_dispatch (lines 145-154).  Returns none exactly when
the Python function raises: on a READY frame whose d payload is absent or
null, d.get(...) is an attribute access on None and raises AttributeError.
The safe_save_state call on READY is persistence, not network I/O, and is
modelled separately by the state-store functions. -/
def handle_dispatch (st : SessionState) (f : DispatchFrame) : Option SessionState :=
  let st1 := match f.s with
    | some n => { st with sequence := some n }
    | none => st
  if f.t = some "READY" then
    match f.d with
    | some p =>
        some { st1 with session_id :=
                 match p.session_id with
                 | some x => some x
                 | none => st1.session_id }
    | none => none
  else
    some st1

/-- Process a list of inbound dispatch frames in order; none if any frame
makes handle_dispatch raise. -/
def run_dispatch (st : SessionState) : List DispatchFrame → Option SessionState
  | [] => some st
  | f :: fs =>
      match handle_dispatch st f with
      | some st2 => run_dispatch st2 fs
      | none => none

/-- The s value of the last frame carrying a non-null s, starting from a
given prior sequence value. -/
def lastS (init : Option Int) : List DispatchFrame → Option Int
  | [] => init
  | f :: fs => lastS (match f.s with | some n => some n | none => init) fs

/-- The maximum of all non-null s values in a frame list (none if there are
none): the quantity the spec says the stored sequence should equal. -/
def maxS : List DispatchFrame → Option Int
  | [] => none
  | f :: fs =>
      match f.s, maxS fs with
      | some n, some m => some (max n m)
      | some n, none => some n
      | none, m => m

/-- An outbound payload built in open_gateway_and_run: a resume request
(op 6, token/session_id/seq), an identify request (op 2, with the identity
properties bundle and presence), or the explicit presence-update (op 3)
frame built by build_presence_payload. -/
inductive GatewayPayload where
  | resume (token : String) (session_id : String) (seq : Int)
  | identify (token : String)
  | presenceUpdate
  deriving Repr, DecidableEq

/-- An observable action of the handshake step: send a payload over the
socket, or sleep for the given number of seconds (the settling delay). -/
inductive GatewayAction where
  | send (p : GatewayPayload)
  | settleSleep (secs : ℚ)
  deriving Repr, DecidableEq

/-- The identify branch of the handshake (src/main.py lines 214-229): send
identify, time.sleep(1), send the presence-update frame. -/
def identify_then_presence (token : String) : List GatewayAction :=
  [.send (.identify token), .settleSleep 1, .send .presenceUpdate]

/-- src/main.py lines 210-229: the resume-or-identify decision and the
actions it emits.  The source condition is the Python expression
(session_id and sequence is not None): session_id is truthy exactly when it
is a non-empty string, so a present-but-empty session_id falls through to
the identify branch. -/
def handshake_sends (token : String) (sid : Option String) (seq : Option Int) :
    List GatewayAction :=
  match sid, seq with
  | some s, some n =>
      if s = "" then identify_then_presence token
      else [.send (.resume token s n)]
  | some _, none => identify_then_presence token
  | none, _ => identify_then_presence token

/-- Whether an action list contains a resume request. -/
def sends_resume (l : List GatewayAction) : Bool :=
  l.any fun a =>
    match a with
    | .send (.resume _ _ _) => true
    | _ => false

/-- The session-invalidating close codes of src/main.py line 182. -/
def RESET_SESSION_CODES : List Nat := [4004, 4010, 4011, 4012, 4013, 4014]

/-- src/main.py lines 262-270: the failure classification performed in the
except block of the reconnect loop.  is_ws_exc says whether the exception
that unwound the attempt is a websocket.WebSocketException (the source
tests isinstance); close_code is getattr(ws, close_code attribute, None),
and Python truthiness makes a 0 code fall through.  Session continuity is
cleared only when all three guards hold and the code is in the set. -/
def classify_failure (is_ws_exc : Bool) (close_code : Option Nat)
    (st : SessionState) : SessionState :=
  match close_code with
  | some c =>
      if is_ws_exc && !(c == 0) then
        if c ∈ RESET_SESSION_CODES then
          { st with session_id := none, sequence := none }
        else st
      else st
  | none => st

/-- The observable outcome of the OP_INVALID_SESSION branch: the session
state afterwards, whether safe_save_state was called before unwinding, and
whether the branch unwinds the attempt (raises RuntimeError). -/
structure InvalidSessionOutcome where
  st : SessionState
  save_called : Bool
  unwind : Bool
  deriving Repr, DecidableEq

/-- src/main.py lines 244-251: handling of an invalid-session (op 9) frame.
d is the frame payload as data.get of the d key with default False: none
models an absent key; the protocol sends a boolean.  If the payload is not
truthy the session fields are cleared and persisted; the branch always
raises RuntimeError afterwards, unwinding the attempt as a retryable
failure. -/
def handle_invalid_session (st : SessionState) (d : Option Bool) :
    InvalidSessionOutcome :=
  let resumable := d.getD false
  if resumable then
    { st := st, save_called := false, unwind := true }
  else
    { st := { st with session_id := none, sequence := none },
      save_called := true, unwind := true }

/-- What one wake of the heartbeat monitor does: exit because stop was
requested during the interval wait; close the socket and exit (missed ack,
nothing sent); send one heartbeat frame carrying d and keep running; or
attempt the send, fail, and exit. -/
inductive HeartbeatStep where
  | stop_exit
  | close_and_exit
  | sent_heartbeat (d : Option Int)
  | send_failed_exit (d : Option Int)
  deriving Repr, DecidableEq

/-- src/main.py heartbeat_loop (lines 156-176), one iteration.  interval_ms
is the hello heartbeat_interval; the source divides by 1000.  stop models
stop_event being set when the interval wait returns; now is time.time();
last_ack is the last_ack_timestamp global, defaulted to 0.0 by the source
expression (last_ack_timestamp or 0.0); send_ok is whether send_json
succeeds. -/
def heartbeat_wake (interval_ms mult : ℚ) (stop : Bool) (now : ℚ)
    (last_ack : Option ℚ) (seq : Option Int) (send_ok : Bool) : HeartbeatStep :=
  let interval := interval_ms / 1000
  if stop then .stop_exit
  else if now - last_ack.getD 0 > interval * mult then .close_and_exit
  else if send_ok then .sent_heartbeat seq
  else .send_failed_exit seq

/-- The heartbeat payload (with its d field) this step put on the wire, if
any; a failed send still attempted exactly this payload. -/
def HeartbeatStep.attempted_send : HeartbeatStep → Option (Option Int)
  | .sent_heartbeat d => some d
  | .send_failed_exit d => some d
  | _ => none

/-- Whether this step forcibly closed the socket. -/
def HeartbeatStep.closes_socket : HeartbeatStep → Bool
  | .close_and_exit => true
  | _ => false

/-- Whether the monitor loops again after this step (every other outcome
returns from heartbeat_loop). -/
def HeartbeatStep.monitor_continues : HeartbeatStep → Bool
  | .sent_heartbeat _ => true
  | _ => false

/-- src/main.py lines 231 and 286: the update of the backoff variable after
an attempt.  success = the attempt reached line 231 (handshake sends done):
backoff is reset to the base.  failure = the except block ran: backoff is
doubled and capped at max, with a dead guard restoring the base if backoff
were nonpositive. -/
def backoff_step (base maxb b : ℚ) : Bool → ℚ
  | true => base
  | false => if b > 0 then min maxb (b * 2) else base

/-- The backoff variable after n consecutive failures following a success
(which left it at base). -/
def backoff_after (base maxb : ℚ) : ℕ → ℚ
  | 0 => base
  | n + 1 => backoff_step base maxb (backoff_after base maxb n) false

/-- src/main.py lines 188-192: the amount slept at the top of a reconnect
iteration.  delay = backoff + jitter, but time.sleep runs only when backoff
exceeds the base (so the first attempt, and the attempt right after a
success, start immediately).  jitter is the sampled random.uniform value,
in [0, backoff * 3/10] when jitter is enabled and 0 when disabled. -/
def backoff_sleep (base b jitter : ℚ) : ℚ :=
  let delay := b + jitter
  if b > base then delay else 0

/-- What one pass over the head of the reconnect loop (src/main.py lines
184-195) observably does: whether the while condition exited the loop,
whether the backoff sleep ran, and whether a connection attempt was then
started.  stop_before is should_stop at the while test; stop_during_sleep
is whether should_stop was raised while time.sleep(delay) was running -
the source uses a plain time.sleep and performs no further check before
websocket.create_connection, so that flag cannot influence the outcome. -/
structure IterObservation where
  exited : Bool
  slept : Bool
  attempt_started : Bool
  deriving Repr, DecidableEq

/-- The reconnect-loop head, as ordered in the source: test should_stop,
then (conditionally) sleep, then start the connection attempt. -/
def loop_iteration (stop_before stop_during_sleep : Bool) (base backoff : ℚ) :
    IterObservation :=
  if stop_before then ⟨true, false, false⟩
  else ⟨false, decide (backoff > base), true⟩

/-- The state-store file as the loader can find it: absent, unparseable, or
holding a JSON object (json.load of a file _atomic_write produced always
yields back the dumped dict). -/
inductive FileState where
  | missing
  | corrupt
  | object (m : Dict)
  deriving Repr, DecidableEq

/-- A StateStore instance together with the file it persists to: _data and
the contents at self.path. -/
structure StoreWorld where
  data : Dict
  file : FileState
  deriving Repr, DecidableEq

/-- src/state_store.py _load (lines 13-19): a missing file leaves _data
empty, a parse or read failure is caught and _data set to empty, and a
parseable object file yields its mapping.  Total by construction: the
Python except clause means no exception escapes. -/
def StateStore._load : FileState → Dict
  | .object m => m
  | .missing => []
  | .corrupt => []

/-- src/state_store.py get (lines 21-22): self._data.get(key, default). -/
def StateStore.get (m : Dict) (k : String) (dflt : Option JVal) : Option JVal :=
  match dictGet m k with
  | some v => some v
  | none => dflt

/-- src/state_store.py _atomic_write (lines 30-49): on success the file
becomes exactly the serialized current _data; every failure is swallowed
and leaves the previous file contents in place (the temp-file/rename
discipline means a failed write never clobbers the destination). -/
def StateStore._atomic_write (data : Dict) (oldFile : FileState)
    (write_ok : Bool) : FileState :=
  if write_ok then .object data else oldFile

/-- src/state_store.py update (lines 24-28): merge the partial mapping into
_data in memory, then attempt the durable write.  The argument is typed as
a dict, so the isinstance early return of the source cannot fire. -/
def StateStore.update (w : StoreWorld) (d : Dict) (write_ok : Bool) :
    StoreWorld :=
  let newData := dictUpdate w.data d
  { data := newData,
    file := StateStore._atomic_write newData w.file write_ok }

/-! Theorems.  One theorem per claim, with counterexamples and witnesses
where the claim calls for them; helper lemmas are shared and never named
after a claim. -/

/-- Helper: handle_dispatch, when it returns, sets sequence to the frame s
value if that is non-null and leaves it alone otherwise; the READY branch
touches only session_id. -/
theorem handle_dispatch_sequence (st : SessionState) (f : DispatchFrame)
    (st2 : SessionState) (h : handle_dispatch st f = some st2) :
    st2.sequence = (match f.s with | some n => some n | none => st.sequence) := by
  rcases f with ⟨s, t, d⟩
  unfold handle_dispatch at h
  dsimp at h ⊢
  by_cases ht : t = some "READY"
  · rw [if_pos ht] at h
    cases d with
    | none => cases h
    | some p =>
        dsimp at h
        injection h with h2
        subst h2
        cases s <;> rfl
  · rw [if_neg ht] at h
    injection h with h2
    subst h2
    cases s <;> rfl

/-- Claim C1, counterexample: from an empty session, processing the frame
sequence s=5 then s=3 leaves the stored sequence at 3, while the maximum s
seen so far is 5 - handle_dispatch overwrites sequence with whatever the
frame carries, so the stored value is not the running maximum and can
decrease. -/
theorem C1_counterexample :
    (run_dispatch ⟨none, none, none⟩
        [⟨some 5, none, none⟩, ⟨some 3, none, none⟩]).map SessionState.sequence
      = some (some 3) ∧
    maxS [⟨some 5, none, none⟩, ⟨some 3, none, none⟩] = some 5 ∧
    some (3 : Int) ≠ some (5 : Int) := by
  refine ⟨rfl, rfl, by decide⟩

/-- Claim C1 as amended: for every sequence of inbound dispatch frames
processed by handle_dispatch, the stored sequence afterwards equals the s
value of the most recent frame carrying a non-null s (last write wins); it
is not clamped to the running maximum. -/
theorem C1_sequence_last_write (st : SessionState) (fs : List DispatchFrame)
    (st2 : SessionState) (h : run_dispatch st fs = some st2) :
    st2.sequence = lastS st.sequence fs := by
  induction fs generalizing st with
  | nil =>
      unfold run_dispatch at h
      cases h
      rfl
  | cons f fs ih =>
      unfold run_dispatch at h
      cases hd : handle_dispatch st f with
      | none => rw [hd] at h; cases h
      | some st1 =>
          rw [hd] at h
          have hseq := handle_dispatch_sequence st f st1 hd
          have := ih st1 h
          rw [this, lastS, ← hseq]

/-- Witness for C1_sequence_last_write at a concrete run. -/
theorem C1_sequence_last_write_witness :
    (⟨some "sid1", some 3, none⟩ : SessionState).sequence
      = lastS (some (7 : Int)) [⟨some 5, none, none⟩, ⟨some 3, none, none⟩] :=
  C1_sequence_last_write ⟨some "sid1", some 7, none⟩
    [⟨some 5, none, none⟩, ⟨some 3, none, none⟩] ⟨some "sid1", some 3, none⟩ rfl

/-- Claim C8: the code contradicts the spec requirement that handle_dispatch
be total.  On the well-formed dispatch frame with t = READY and a null (or
absent) d payload, the source evaluates d.get(...) with d = None and raises
AttributeError; the model returns none there. -/
theorem C8_ready_without_payload :
    handle_dispatch ⟨some "old", some 5, none⟩ ⟨some 7, some "READY", none⟩
      = none := by
  rfl

/-- Claim C3, counterexample: with session_id present but equal to the
empty string and sequence present, both continuity fields are present yet
the handshake takes the identify path and sends no resume - the source
tests Python truthiness of session_id, under which an empty string counts
as absent. -/
theorem C3_counterexample :
    sends_resume (handshake_sends "tok" (some "") (some 0)) = false ∧
    (some "" : Option String).isSome = true ∧
    (some (0 : Int)).isSome = true := by
  decide

/-- Claim C3 as amended: a resume request is sent iff session_id is present
and non-empty and sequence is present; in every other case the attempt
sends identify, then the settling delay, then the presence-update frame,
and exactly one of the two action lists is emitted. -/
theorem C3_resume_iff (token : String) (sid : Option String) (seq : Option Int) :
    (sends_resume (handshake_sends token sid seq) = true ↔
       (∃ s, sid = some s ∧ s ≠ "") ∧ seq.isSome = true) ∧
    (sends_resume (handshake_sends token sid seq) = false →
       handshake_sends token sid seq = identify_then_presence token) := by
  cases sid with
  | none => simp [handshake_sends, sends_resume, identify_then_presence]
  | some s =>
      cases seq with
      | none => simp [handshake_sends, sends_resume, identify_then_presence]
      | some n =>
          by_cases hs : s = ""
          · subst hs
            simp [handshake_sends, sends_resume, identify_then_presence]
          · simp [handshake_sends, sends_resume, identify_then_presence, hs]

/-- Witness for C3_resume_iff: with a session id present but no sequence,
the identify path with settling delay and presence frame is taken. -/
theorem C3_resume_iff_witness :
    handshake_sends "tok" (some "sid1") none = identify_then_presence "tok" :=
  (C3_resume_iff "tok" (some "sid1") none).2 (by decide)

/-- Claim C4, counterexample: the transport reports close code 4004 (in the
session-invalidating set), but the exception unwinding the attempt is not a
websocket.WebSocketException - exactly what happens when the receive loop
catches WebSocketConnectionClosedException at line 259 and re-raises it as
RuntimeError at line 260 - and the session fields are left in place, so the
next attempt resumes rather than identifies. -/
theorem C4_counterexample :
    classify_failure false (some 4004) ⟨some "abc", some 7, none⟩
      = ⟨some "abc", some 7, none⟩ ∧
    4004 ∈ RESET_SESSION_CODES ∧
    sends_resume (handshake_sends "tok" (some "abc") (some 7)) = true := by
  refine ⟨rfl, by decide, by decide⟩

/-- Claim C4 as amended: session_id and sequence are cleared exactly when
the attempt unwound with a websocket.WebSocketException, the transport
reported a truthy close code, and that code is in the session-invalidating
set; in every other case (including in-set codes reported alongside
non-websocket exceptions, such as the RuntimeError the receive loop
re-raises for a closed transport) both fields are left untouched. -/
theorem C4_classify (is_ws : Bool) (cc : Option Nat) (st : SessionState) :
    ((∃ c, cc = some c ∧ is_ws = true ∧ c ≠ 0 ∧ c ∈ RESET_SESSION_CODES) →
       classify_failure is_ws cc st
         = { st with session_id := none, sequence := none }) ∧
    (¬ (∃ c, cc = some c ∧ is_ws = true ∧ c ≠ 0 ∧ c ∈ RESET_SESSION_CODES) →
       classify_failure is_ws cc st = st) := by
  constructor
  · rintro ⟨c, rfl, rfl, hc0, hcs⟩
    simp [classify_failure, hc0, hcs]
  · intro hno
    cases cc with
    | none => rfl
    | some c =>
        cases is_ws with
        | false => simp [classify_failure]
        | true =>
            by_cases hc0 : c = 0
            · simp [classify_failure, hc0]
            · by_cases hcs : c ∈ RESET_SESSION_CODES
              · exact absurd ⟨c, rfl, rfl, hc0, hcs⟩ hno
              · simp [classify_failure, hc0, hcs]

/-- Witness for C4_classify: a WebSocketException with close code 4010
clears both continuity fields. -/
theorem C4_classify_witness :
    classify_failure true (some 4010) ⟨some "abc", some 7, none⟩
      = ⟨none, none, none⟩ :=
  (C4_classify true (some 4010) ⟨some "abc", some 7, none⟩).1
    ⟨4010, rfl, rfl, by decide, by decide⟩

/-- Helper: classify_failure never resurrects cleared continuity fields -
from a state with both fields already none it returns that state. -/
theorem classify_failure_cleared (is_ws : Bool) (cc : Option Nat) (ts : Option ℚ) :
    classify_failure is_ws cc ⟨none, none, ts⟩ = ⟨none, none, ts⟩ := by
  cases cc with
  | none => rfl
  | some c =>
      by_cases hw : (is_ws && !(c == 0)) = true
      · by_cases hc : c ∈ RESET_SESSION_CODES
        · simp [classify_failure, hw, hc]
        · simp [classify_failure, hw, hc]
      · simp [classify_failure, hw]

/-- Claim C5: every invalid-session frame unwinds the attempt as a
retryable failure; when its payload is not truthy (non-resumable, which
covers an absent payload defaulted to False) both continuity fields are
cleared and safe_save_state is called before the unwind, and whatever
close-code classification then runs, the next handshake sends identify
with the settling delay and presence frame, never resume. -/
theorem C5_invalid_session (st : SessionState) (d : Option Bool) :
    (handle_invalid_session st d).unwind = true ∧
    (d.getD false = false →
       (handle_invalid_session st d).st.session_id = none ∧
       (handle_invalid_session st d).st.sequence = none ∧
       (handle_invalid_session st d).save_called = true ∧
       ∀ (is_ws : Bool) (cc : Option Nat) (token : String),
         handshake_sends token
             (classify_failure is_ws cc (handle_invalid_session st d).st).session_id
             (classify_failure is_ws cc (handle_invalid_session st d).st).sequence
           = identify_then_presence token) := by
  constructor
  · unfold handle_invalid_session
    cases hd : d.getD false <;> simp
  · intro hfalse
    unfold handle_invalid_session
    rw [hfalse]
    refine ⟨rfl, rfl, rfl, ?_⟩
    intro is_ws cc token
    dsimp
    rw [show ({ st with session_id := none, sequence := none } : SessionState)
          = ⟨none, none, st.last_ack_timestamp⟩ from rfl,
        classify_failure_cleared]
    rfl

/-- Witness for C5_invalid_session: the frame with payload d = false (the
concrete scenario of the spec) clears the session and the next handshake
identifies. -/
theorem C5_invalid_session_witness :
    (handle_invalid_session ⟨some "abc", some 42, none⟩ (some false)).unwind = true ∧
    (handle_invalid_session ⟨some "abc", some 42, none⟩ (some false)).st.session_id
      = none :=
  ⟨(C5_invalid_session ⟨some "abc", some 42, none⟩ (some false)).1,
   ((C5_invalid_session ⟨some "abc", some 42, none⟩ (some false)).2 rfl).1⟩

/-- Claim C9, counterexample: the stop signal is raised while the backoff
sleep is running (second argument true), yet the iteration still starts a
connection attempt - time.sleep is not interruptible by should_stop and
nothing is re-checked between the sleep and create_connection. -/
theorem C9_counterexample :
    (loop_iteration false true 1 2).attempt_started = true ∧
    (loop_iteration false true 1 2).slept = true := by
  decide

/-- Claim C9 as amended: the reconnect loop checks the stop signal at the
top of every iteration, so an iteration that begins with the signal raised
exits at once, entering no wait and starting no attempt; but the backoff
sleep is a plain uninterruptible time.sleep, so a stop signal raised while
it runs does not prevent the connection attempt that follows it. -/
theorem C9_stop_checked_at_head (stop_before stop_during : Bool) (base backoff : ℚ) :
    (stop_before = true →
       loop_iteration stop_before stop_during base backoff = ⟨true, false, false⟩) ∧
    (stop_before = false →
       (loop_iteration stop_before stop_during base backoff).attempt_started
         = true) := by
  constructor
  · rintro rfl; rfl
  · rintro rfl; rfl

/-- Witness for C9_stop_checked_at_head: an iteration beginning with the
signal raised neither sleeps nor connects. -/
theorem C9_stop_checked_at_head_witness :
    loop_iteration true false 1 2 = ⟨true, false, false⟩ :=
  (C9_stop_checked_at_head true false 1 2).1 rfl

/-- Claim C6: on a wake of the heartbeat monitor with stop not requested,
if the elapsed time since the last acknowledgment exceeds
interval x timeout_multiplier the monitor closes the socket and exits
having sent nothing; otherwise it puts exactly one heartbeat frame
carrying the current sequence on the wire, does not close the socket, and
keeps running precisely when the send succeeded (a failed send terminates
the monitor). -/
theorem C6_heartbeat_monitor (interval_ms mult now : ℚ) (la : Option ℚ)
    (seq : Option Int) (send_ok : Bool) :
    (now - la.getD 0 > interval_ms / 1000 * mult →
       heartbeat_wake interval_ms mult false now la seq send_ok
         = .close_and_exit ∧
       (heartbeat_wake interval_ms mult false now la seq send_ok).attempted_send
         = none) ∧
    (¬ (now - la.getD 0 > interval_ms / 1000 * mult) →
       (heartbeat_wake interval_ms mult false now la seq send_ok).attempted_send
         = some seq ∧
       (heartbeat_wake interval_ms mult false now la seq send_ok).closes_socket
         = false ∧
       (heartbeat_wake interval_ms mult false now la seq send_ok).monitor_continues
         = send_ok) := by
  constructor
  · intro hlate
    rw [show heartbeat_wake interval_ms mult false now la seq send_ok
          = .close_and_exit by unfold heartbeat_wake; rw [if_neg Bool.false_ne_true]; exact if_pos hlate]
    exact ⟨rfl, rfl⟩
  · intro hontime
    have hw : heartbeat_wake interval_ms mult false now la seq send_ok
        = if send_ok then .sent_heartbeat seq else .send_failed_exit seq := by
      unfold heartbeat_wake
      rw [if_neg Bool.false_ne_true]
      exact if_neg hontime
    rw [hw]
    cases send_ok <;> exact ⟨rfl, rfl, rfl⟩

/-- Witness for C6_heartbeat_monitor: elapsed time 5s against the spec
scenario interval of 41250ms with multiplier 2 is within bounds, so one
heartbeat carrying sequence 9 is sent and the monitor keeps running. -/
theorem C6_heartbeat_monitor_witness :
    (heartbeat_wake 41250 2 false 10 (some 5) (some 9) true).attempted_send
      = some (some 9) ∧
    (heartbeat_wake 41250 2 false 10 (some 5) (some 9) true).closes_socket
      = false ∧
    (heartbeat_wake 41250 2 false 10 (some 5) (some 9) true).monitor_continues
      = true :=
  (C6_heartbeat_monitor 41250 2 10 (some 5) (some 9) true).2 (by norm_num)

/-- Helper: looking a different key up in a dict from which key k was
filtered out gives the same answer as in the original dict. -/
theorem dictGet_filter_ne (m : Dict) (k k2 : String) (h : ¬ k = k2) :
    dictGet (m.filter fun p => !(p.1 == k)) k2 = dictGet m k2 := by
  induction m with
  | nil => rfl
  | cons p rest ih =>
      obtain ⟨k3, v3⟩ := p
      have hcons : dictGet ((k3, v3) :: rest) k2
          = if k3 = k2 then some v3 else dictGet rest k2 := rfl
      by_cases hp : k3 = k
      · subst hp
        have hfil : List.filter (fun p => !(p.1 == k3)) ((k3, v3) :: rest)
            = List.filter (fun p => !(p.1 == k3)) rest := by
          simp [List.filter_cons]
        rw [hfil, ih, hcons, if_neg h]
      · have hb : (!(k3 == k)) = true := by simp [hp]
        have hfil : List.filter (fun p => !(p.1 == k)) ((k3, v3) :: rest)
            = (k3, v3) :: List.filter (fun p => !(p.1 == k)) rest := by
          simp [List.filter_cons, hb]
        have hcons2 :
            dictGet ((k3, v3) :: List.filter (fun p => !(p.1 == k)) rest) k2
              = if k3 = k2 then some v3
                else dictGet (List.filter (fun p => !(p.1 == k)) rest) k2 := rfl
        rw [hfil, hcons2, ih, hcons]

/-- Helper: lookup after a single-key dict assignment - the assigned key
yields the new value, every other key is unaffected. -/
theorem dictGet_dictInsert (m : Dict) (k k2 : String) (v : JVal) :
    dictGet (dictInsert m k v) k2
      = if k = k2 then some v else dictGet m k2 := by
  have hcons : dictGet ((k, v) :: m.filter fun p => !(p.1 == k)) k2
      = if k = k2 then some v
        else dictGet (m.filter fun p => !(p.1 == k)) k2 := rfl
  unfold dictInsert
  rw [hcons]
  by_cases h : k = k2
  · rw [if_pos h, if_pos h]
  · rw [if_neg h, if_neg h, dictGet_filter_ne m k k2 h]

/-- Claim C7: updating any store with the mapping
session_id = abc, sequence = 42, last_ack_timestamp = T and reloading a
fresh instance from the written file yields get returning exactly those
three values; and loading from a missing or unparseable file yields the
empty state, in which every get returns its default - the loader is a
total function, so no exception is possible. -/
theorem C7_roundtrip :
    (∀ (w : StoreWorld) (T : ℚ),
       StateStore.get
           (StateStore._load (StateStore.update w
             [("session_id", JVal.str "abc"), ("sequence", JVal.num 42),
              ("last_ack_timestamp", JVal.num T)] true).file)
           "session_id" none = some (JVal.str "abc") ∧
       StateStore.get
           (StateStore._load (StateStore.update w
             [("session_id", JVal.str "abc"), ("sequence", JVal.num 42),
              ("last_ack_timestamp", JVal.num T)] true).file)
           "sequence" none = some (JVal.num 42) ∧
       StateStore.get
           (StateStore._load (StateStore.update w
             [("session_id", JVal.str "abc"), ("sequence", JVal.num 42),
              ("last_ack_timestamp", JVal.num T)] true).file)
           "last_ack_timestamp" none = some (JVal.num T)) ∧
    (StateStore._load .missing = [] ∧ StateStore._load .corrupt = [] ∧
     ∀ (k : String) (dflt : Option JVal), StateStore.get [] k dflt = dflt) := by
  constructor
  · intro w T
    have hfile : StateStore._load (StateStore.update w
        [("session_id", JVal.str "abc"), ("sequence", JVal.num 42),
         ("last_ack_timestamp", JVal.num T)] true).file
        = dictInsert (dictInsert (dictInsert w.data "session_id" (JVal.str "abc"))
            "sequence" (JVal.num 42)) "last_ack_timestamp" (JVal.num T) := rfl
    rw [hfile]
    unfold StateStore.get
    rw [dictGet_dictInsert, if_neg (by decide), dictGet_dictInsert,
        if_neg (by decide), dictGet_dictInsert, if_pos rfl]
    rw [dictGet_dictInsert, if_neg (by decide), dictGet_dictInsert, if_pos rfl]
    rw [dictGet_dictInsert, if_pos rfl]
    exact ⟨rfl, rfl, rfl⟩
  · exact ⟨rfl, rfl, fun k dflt => rfl⟩

/-- Claim C10: update merges its argument into the in-memory mapping before
the durable write, so when the write fails (write_ok = false) a subsequent
get still returns the merged value while the file keeps its old contents;
concretely, merging sequence = 42 into an empty store over an empty file
with a failing write leaves memory at 42 but a fresh load at the default -
the two views diverge. -/
theorem C10_memory_merge_precedes_write :
    (∀ (w : StoreWorld) (k : String) (v : JVal),
       StateStore.get (StateStore.update w [(k, v)] false).data k none = some v ∧
       (StateStore.update w [(k, v)] false).file = w.file) ∧
    (StateStore.get
        (StateStore.update ⟨[], .object []⟩ [("sequence", JVal.num 42)] false).data
        "sequence" none = some (JVal.num 42) ∧
     StateStore.get
        (StateStore._load
          (StateStore.update ⟨[], .object []⟩ [("sequence", JVal.num 42)] false).file)
        "sequence" none = none) := by
  constructor
  · intro w k v
    constructor
    · have hdata : (StateStore.update w [(k, v)] false).data
          = dictInsert w.data k v := rfl
      rw [hdata]
      unfold StateStore.get
      rw [dictGet_dictInsert, if_pos rfl]
    · rfl
  · exact ⟨rfl, rfl⟩

/-- Helper: with a positive base strictly below the cap, the backoff
variable after n+1 consecutive failures is the doubled base capped at the
maximum. -/
theorem backoff_after_succ (base maxb : ℚ) (h0 : 0 < base) (h1 : base < maxb) :
    ∀ n : ℕ, backoff_after base maxb (n + 1) = min maxb (base * 2 ^ (n + 1)) := by
  have hmax0 : 0 < maxb := h0.trans h1
  intro n
  induction n with
  | zero =>
      show backoff_step base maxb (backoff_after base maxb 0) false = _
      unfold backoff_after backoff_step
      rw [if_pos h0, pow_one]
  | succ n ih =>
      show backoff_step base maxb (backoff_after base maxb (n + 1)) false = _
      rw [ih]
      unfold backoff_step
      have hpos : (0 : ℚ) < min maxb (base * 2 ^ (n + 1)) :=
        lt_min hmax0 (by positivity)
      rw [if_pos hpos]
      have hpow : base * 2 ^ (n + 1) * 2 = base * 2 ^ (n + 1 + 1) := by
        rw [pow_succ]; ring
      rcases le_total (base * 2 ^ (n + 1)) maxb with hle | hge
      · rw [min_eq_right hle, hpow]
      · rw [min_eq_left hge]
        have h2 : maxb ≤ maxb * 2 := by linarith
        rw [min_eq_left h2]
        have h3 : maxb ≤ base * 2 ^ (n + 1 + 1) := by
          rw [← hpow]; linarith
        rw [min_eq_left h3]

/-- Claim C2: with a positive base delay strictly below the cap, after the
Nth consecutive failure (N at least 1) the backoff variable equals
min(max_delay, base x 2^N); the sleep applied at the top of the following
iteration is exactly that value plus the jitter term, which is bounded by
3/10 of it (and is 0 when jitter is disabled, which satisfies the same
bounds); the backoff strictly exceeds the base then, a successful
handshake resets it to the base, and a failure transition from any value
at or above the base never brings it back down to the base - so the reset
happens on success and only then. -/
theorem C2_backoff (base maxb : ℚ) (h0 : 0 < base) (h1 : base < maxb)
    (N : ℕ) (hN : 1 ≤ N) (jitter : ℚ) (hj0 : 0 ≤ jitter)
    (hj1 : jitter ≤ 3 / 10 * backoff_after base maxb N) :
    backoff_after base maxb N = min maxb (base * 2 ^ N) ∧
    backoff_sleep base (backoff_after base maxb N) jitter
      = min maxb (base * 2 ^ N) + jitter ∧
    jitter ≤ 3 / 10 * min maxb (base * 2 ^ N) ∧
    base < backoff_after base maxb N ∧
    (∀ b : ℚ, backoff_step base maxb b true = base) ∧
    (∀ b : ℚ, base ≤ b → base < backoff_step base maxb b false) := by
  obtain ⟨n, rfl⟩ : ∃ n, N = n + 1 := ⟨N - 1, (Nat.succ_pred_eq_of_pos hN).symm⟩
  have heq := backoff_after_succ base maxb h0 h1 (n := n)
  have hlt : base < min maxb (base * 2 ^ (n + 1)) := by
    have h2 : (2 : ℚ) ^ 1 ≤ 2 ^ (n + 1) :=
      pow_le_pow_right₀ (by norm_num) (Nat.succ_le_succ (Nat.zero_le n))
    have h3 : base < base * 2 ^ (n + 1) := by
      rw [pow_one] at h2; nlinarith
    exact lt_min h1 h3
  refine ⟨heq, ?_, ?_, ?_, fun b => rfl, ?_⟩
  · rw [heq]
    unfold backoff_sleep
    rw [if_pos hlt]
  · rw [heq] at hj1
    exact hj1
  · rw [heq]
    exact hlt
  · intro b hb
    unfold backoff_step
    rw [if_pos (h0.trans_le hb)]
    exact lt_min h1 (by nlinarith)

/-- Witness for C2_backoff at the default configuration (base 1s, cap 60s)
after 3 consecutive failures with jitter disabled: the backoff is
min(60, 8) and the applied sleep is exactly that. -/
theorem C2_backoff_witness :
    backoff_after 1 60 3 = min 60 ((1 : ℚ) * 2 ^ 3) ∧
    backoff_sleep 1 (backoff_after 1 60 3) 0 = min 60 ((1 : ℚ) * 2 ^ 3) + 0 ∧
    (1 : ℚ) < backoff_after 1 60 3 := by
  have h := C2_backoff 1 60 (by norm_num) (by norm_num) 3 (by norm_num) 0
    le_rfl (by norm_num [backoff_after, backoff_step])
  exact ⟨h.1, h.2.1, h.2.2.2.1⟩

end Neveroff
